import Mathlib

/-!
# LogPattern Converter: license issuing and activation

A shallow embedding of the two stateful handlers of `functions/index.js`,

* `licenseVerifier` (HTTP POST, binds a license key to a machine id), and
* `stripeWebhook` (turns a payment event into a license record),

over an explicit model of the two Firestore collections they touch
(`licenses` and `stripe_sessions`).

Modelling conventions.

* JavaScript values that reach the handlers from a request are `JsVal`s (the
  JSON data model plus `undefined`).  Numbers are integers; `String(n)` is
  the decimal rendering, which is what JavaScript prints for integers below
  `10^21` in absolute value.
* A collection is an association list from document id to document.  A
  document reference is obtained from a string id.  The checks the client
  library makes on the characters of an id and on the shape of a value it is
  asked to write are outside the sources and are not modelled: every string
  is an id and every value can be stored.  Store round trips always
  complete: outages are not modelled.
* A handler runs from its first line to its response without interruption,
  except in the last section, where the read and the update of two
  activation requests are interleaved.
* Everything a handler takes from the outside world during one call (the
  random bytes, the fallback uuid, the outcome of the mail provider, the
  server clock) is an explicit argument.
* Response headers and log lines have no effect on the store or on the
  status and body of a response and are left out.
-/

namespace LogPattern

/-! ## JavaScript values -/

/-- A value as the handlers see it: the JSON data model plus `undefined`.
An object is the list of its own properties; the first entry for a name is
the one a property read returns. -/
inductive JsVal where
  | undefined
  | null
  | bool (b : Bool)
  | num (n : Int)
  | str (s : String)
  | arr (items : List JsVal)
  | obj (fields : List (String × JsVal))

namespace JsVal

mutual
/-- Decidable equality of values (structural). -/
def decEq : (a b : JsVal) → Decidable (a = b)
  | .undefined, .undefined => isTrue rfl
  | .null, .null => isTrue rfl
  | .bool a, .bool b =>
    if h : a = b then isTrue (by rw [h]) else isFalse (by intro e; cases e; exact h rfl)
  | .num a, .num b =>
    if h : a = b then isTrue (by rw [h]) else isFalse (by intro e; cases e; exact h rfl)
  | .str a, .str b =>
    if h : a = b then isTrue (by rw [h]) else isFalse (by intro e; cases e; exact h rfl)
  | .arr a, .arr b =>
    match decEqItems a b with
    | isTrue h => isTrue (by rw [h])
    | isFalse h => isFalse (by intro e; cases e; exact h rfl)
  | .obj a, .obj b =>
    match decEqFields a b with
    | isTrue h => isTrue (by rw [h])
    | isFalse h => isFalse (by intro e; cases e; exact h rfl)
  | .undefined, .null | .undefined, .bool _ | .undefined, .num _ | .undefined, .str _
  | .undefined, .arr _ | .undefined, .obj _ => isFalse (by intro e; cases e)
  | .null, .undefined | .null, .bool _ | .null, .num _ | .null, .str _
  | .null, .arr _ | .null, .obj _ => isFalse (by intro e; cases e)
  | .bool _, .undefined | .bool _, .null | .bool _, .num _ | .bool _, .str _
  | .bool _, .arr _ | .bool _, .obj _ => isFalse (by intro e; cases e)
  | .num _, .undefined | .num _, .null | .num _, .bool _ | .num _, .str _
  | .num _, .arr _ | .num _, .obj _ => isFalse (by intro e; cases e)
  | .str _, .undefined | .str _, .null | .str _, .bool _ | .str _, .num _
  | .str _, .arr _ | .str _, .obj _ => isFalse (by intro e; cases e)
  | .arr _, .undefined | .arr _, .null | .arr _, .bool _ | .arr _, .num _
  | .arr _, .str _ | .arr _, .obj _ => isFalse (by intro e; cases e)
  | .obj _, .undefined | .obj _, .null | .obj _, .bool _ | .obj _, .num _
  | .obj _, .str _ | .obj _, .arr _ => isFalse (by intro e; cases e)
termination_by structural a => a
/-- Decidable equality of lists of values. -/
def decEqItems : (a b : List JsVal) → Decidable (a = b)
  | [], [] => isTrue rfl
  | a :: as, b :: bs =>
    match decEq a b, decEqItems as bs with
    | isTrue h, isTrue h2 => isTrue (by rw [h, h2])
    | isFalse h, _ => isFalse (by intro e; cases e; exact h rfl)
    | _, isFalse h => isFalse (by intro e; cases e; exact h rfl)
  | [], _ :: _ | _ :: _, [] => isFalse (by intro e; cases e)
termination_by structural a => a
/-- Decidable equality of property lists. -/
def decEqFields : (a b : List (String × JsVal)) → Decidable (a = b)
  | [], [] => isTrue rfl
  | (k, a) :: as, (l, b) :: bs =>
    if hk : k = l then
      match decEq a b, decEqFields as bs with
      | isTrue h, isTrue h2 => isTrue (by rw [hk, h, h2])
      | isFalse h, _ => isFalse (by intro e; cases e; exact h rfl)
      | _, isFalse h => isFalse (by intro e; cases e; exact h rfl)
    else isFalse (by intro e; cases e; exact hk rfl)
  | [], _ :: _ | _ :: _, [] => isFalse (by intro e; cases e)
termination_by structural a => a
end

instance : DecidableEq JsVal := decEq

/-- JavaScript truthiness: `undefined`, `null`, `false`, `0` and `""` are
falsy, everything else (arrays and objects included) is truthy. -/
def truthy : JsVal → Bool
  | undefined => false
  | null => false
  | bool b => b
  | num n => if n = 0 then false else true
  | str s => if s = "" then false else true
  | arr _ => true
  | obj _ => true

/-- The operator `a || b`. -/
def or (a b : JsVal) : JsVal := if a.truthy then a else b

/-- The operator `a && b`. -/
def and (a b : JsVal) : JsVal := if a.truthy then b else a

/-- True for `undefined` and `null`, the two values on which a property read
throws a `TypeError`. -/
def nullish : JsVal → Bool
  | undefined => true
  | null => true
  | _ => false

/-- The first entry for `name` in a property list, `undefined` if none. -/
def field (name : String) : List (String × JsVal) → JsVal
  | [] => undefined
  | (k, v) :: rest => if k = name then v else field name rest

/-- The property read `v.name` on a value that is not `undefined` or `null`.
None of the names the handlers read is a property of a string, number,
boolean or array, so the read gives `undefined` on those. -/
def prop (v : JsVal) (name : String) : JsVal :=
  match v with
  | obj fields => field name fields
  | _ => undefined

/-- The comparison `a === b` between a value read from the store and a value
taken from the request.  Primitives compare by value; two arrays or two
objects are distinct references and never compare equal. -/
def strictEq : JsVal → JsVal → Bool
  | undefined, undefined => true
  | null, null => true
  | bool a, bool b => a == b
  | num a, num b => a == b
  | str a, str b => a == b
  | _, _ => false

mutual
/-- The conversion `String(v)`, also used by template literals. -/
def toStr : JsVal → String
  | undefined => "undefined"
  | null => "null"
  | bool b => if b then "true" else "false"
  | num n => toString n
  | str s => s
  | arr items => joinItems items
  | obj _ => "[object Object]"
termination_by structural v => v
/-- The items of an array joined with commas; `undefined` and `null` items
render as the empty string. -/
def joinItems : List JsVal → String
  | [] => ""
  | undefined :: rest => sepItems rest
  | null :: rest => sepItems rest
  | v :: rest => toStr v ++ sepItems rest
termination_by structural l => l
/-- The items after the first one, each preceded by a comma. -/
def sepItems : List JsVal → String
  | [] => ""
  | undefined :: rest => "," ++ sepItems rest
  | null :: rest => "," ++ sepItems rest
  | v :: rest => "," ++ toStr v ++ sepItems rest
termination_by structural l => l
end

end JsVal

open JsVal

/-! ## The document store -/

/-- A document of the `licenses` collection. -/
structure License where
  activated : Bool
  plan : JsVal
  machineId : JsVal
  userId : JsVal
  stripeSessionId : String
  creationDate : Nat
  activationDate : Option Nat
  deriving DecidableEq

/-- A document of the `stripe_sessions` collection. -/
structure SessionRecord where
  processed : Bool
  licenseKey : String
  createdAt : Nat
  rawSession : JsVal
  emailSent : Option Bool
  emailError : Option String
  deriving DecidableEq

/-- The document stored under `k`, if any (`ref.get()`). -/
def docGet {α : Type} (k : String) : List (String × α) → Option α
  | [] => none
  | (k1, v) :: rest => if k1 = k then some v else docGet k rest

/-- Store `v` under `k`, replacing a document already there
(`ref.set(v, {merge: false})` and `ref.set(v)`). -/
def docSet {α : Type} (k : String) (v : α) : List (String × α) → List (String × α)
  | [] => [(k, v)]
  | (k1, v1) :: rest => if k1 = k then (k, v) :: rest else (k1, v1) :: docSet k v rest

/-- The two collections. -/
structure Store where
  licenses : List (String × License)
  sessions : List (String × SessionRecord)
  deriving DecidableEq

/-- The store with no documents. -/
def Store.empty : Store := ⟨[], []⟩

/-- An HTTP response: status code and body. -/
structure Response where
  status : Nat
  body : JsVal
  deriving DecidableEq

/-! ## licenseVerifier -/

/-- The part of a request `licenseVerifier` looks at. -/
structure HttpRequest where
  method : String
  body : JsVal
  deriving DecidableEq

/-- The value `body.license_key || body.licenseKey || null`, where
`body = req.body || {}`. -/
def requestKey (req : HttpRequest) : JsVal :=
  let body := JsVal.or req.body (obj [])
  JsVal.or (prop body "license_key") (JsVal.or (prop body "licenseKey") null)

/-- The value `body.machineId || body.machine_id || null`. -/
def requestMachine (req : HttpRequest) : JsVal :=
  let body := JsVal.or req.body (obj [])
  JsVal.or (prop body "machineId") (JsVal.or (prop body "machine_id") null)

/-- Response 405. -/
def methodNotAllowed : Response :=
  ⟨405, obj [("success", bool false), ("message", str "Método no permitido. Use POST.")]⟩

/-- Response 400. -/
def missingFields : Response :=
  ⟨400, obj [("success", bool false),
    ("message", str "Faltan la clave de licencia (\"license_key\") o el ID de la máquina (\"machineId\").")]⟩

/-- Response 403 for a key with no document. -/
def invalidKey : Response :=
  ⟨403, obj [("success", bool false),
    ("message", str "CLAVE INVÁLIDA. La clave de licencia no fue encontrada.")]⟩

/-- Response 403 for a license bound to another machine. -/
def licenseInUse : Response :=
  ⟨403, obj [("success", bool false),
    ("message", str "LICENCIA EN USO. Esta clave ya está activa en otra máquina. Contacte a soporte.")]⟩

/-- Response 500 of the handler's `catch`. -/
def internalError : Response :=
  ⟨500, obj [("success", bool false),
    ("message", str "Error interno del servidor al procesar la licencia.")]⟩

/-- Response 200 of a successful activation or confirmation. -/
def activatedResponse (license_key machineId user : JsVal) : Response :=
  ⟨200, obj [("success", bool true),
    ("message", str ("✅ LICENCIA ACTIVADA: Clave \x27" ++ toStr license_key
      ++ "\x27 registrada con éxito.")),
    ("licenseData", obj [("key", license_key), ("machine", machineId), ("user", user)])]⟩

/-- What the handler has decided once its read of the license document has
returned: either a response that ends the call without a write, or the
update it is about to send. -/
inductive Decision where
  | reply (r : Response)
  | activate (key : String) (license_key machineId userId : JsVal)
  deriving DecidableEq

/-- Lines 84-126: everything up to and including the decision taken on the
document read by `licenseRef.get()`. -/
def verifierDecide (s : Store) (req : HttpRequest) : Decision :=
  if req.method = "OPTIONS" then .reply ⟨204, str ""⟩
  else if req.method ≠ "POST" then .reply methodNotAllowed
  else
    let license_key := requestKey req
    let machineId := requestMachine req
    if !license_key.truthy || !machineId.truthy then .reply missingFields
    else
      match docGet (toStr license_key) s.licenses with
      | none => .reply invalidKey
      | some licenseData =>
        if licenseData.activated && licenseData.machineId.truthy
            && !(strictEq licenseData.machineId machineId) then
          .reply licenseInUse
        else
          .activate (toStr license_key) license_key machineId
            (JsVal.or licenseData.userId (str "anonymous_client"))

/-- The document after the four fields of the update of lines 129-134 have
been merged into it. -/
def License.activate (current : License) (machineId userId : JsVal) (now : Nat) : License :=
  { current with activated := true, activationDate := some now,
                 userId := userId, machineId := machineId }

/-- Lines 129-141: `licenseRef.update(...)` merges the four fields into the
document as it is at the time of the write, then the success response is
sent.  An update of a missing document is rejected by the store; the
handler's `catch` answers 500. -/
def verifierCommit (s : Store) (key : String) (license_key machineId userId : JsVal)
    (now : Nat) : Store × Response :=
  match docGet key s.licenses with
  | none => (s, internalError)
  | some current =>
    ({ s with licenses := docSet key (current.activate machineId userId now) s.licenses },
     activatedResponse license_key machineId userId)

/-- The handler `licenseVerifier`, run without interruption at server time
`now`. -/
def licenseVerifier (s : Store) (req : HttpRequest) (now : Nat) : Store × Response :=
  match verifierDecide s req with
  | .reply r => (s, r)
  | .activate key license_key machineId userId =>
    verifierCommit s key license_key machineId userId now

/-! ## stripeWebhook -/

/-- The configuration values the webhook reads from `CFG`, and whether the
two provider clients were built at load time (`stripe`, `sgMail`). -/
structure Config where
  STRIPE_WEBHOOK_SECRET : JsVal
  SENDGRID_API_KEY : JsVal
  EMAIL_FROM : JsVal
  stripe : Bool
  sgMail : Bool

/-- The part of a request `stripeWebhook` looks at.  `signature` is the value
of `req.headers[...] || req.headers[...]`; `constructed` is what
`stripe.webhooks.constructEvent(rawBody, sig, secret)` does on this request:
it returns the verified event or throws an error with the given text. -/
structure WebhookRequest where
  method : String
  signature : JsVal
  body : JsVal
  constructed : Except String JsVal

/-- What one run of the webhook takes from outside: the bytes returned by
`crypto.randomBytes(32)`, the value of `uuidv4()`, the failure of
`sgMail.send` (`none` when the mail is accepted) and the server clock, read
once for the timestamps of the run. -/
structure Effects where
  randomBytes : List Nat
  uuid : String
  mailError : Option String
  now : Nat

/-- How a run of the webhook ends: a response is sent, or a `TypeError`
raised before the `try` block leaves the handler without a response. -/
inductive Outcome where
  | sent (r : Response)
  | uncaught
  deriving DecidableEq

/-- The lowercase hexadecimal digit of a value below 16. -/
def hexDigit (n : Nat) : Char :=
  if n < 10 then Char.ofNat (48 + n) else Char.ofNat (87 + n)

/-- The two digits of one byte, high nibble first. -/
def hexByte (b : Nat) : List Char :=
  [hexDigit (b % 256 / 16), hexDigit (b % 256 % 16)]

/-- The characters of `buffer.toString("hex")`. -/
def hexChars : List Nat → List Char
  | [] => []
  | b :: rest => hexByte b ++ hexChars rest

/-- The string `buffer.toString("hex")`. -/
def toHex (bytes : List Nat) : String := String.mk (hexChars bytes)

/-- The license key built from the random bytes (lines 216-217). -/
def makeLicenseKey (bytes : List Nat) : String := "LP-" ++ toHex bytes

/-- Lines 177-189: the event the handler works on, or the text of the error
thrown by the signature check. -/
def resolveEvent (cfg : Config) (req : WebhookRequest) : Except String JsVal :=
  if cfg.STRIPE_WEBHOOK_SECRET.truthy && req.signature.truthy && cfg.stripe then
    req.constructed
  else
    .ok req.body

/-- Line 192: `event && event.type ? event.type : null`. -/
def eventTypeOf (event : JsVal) : JsVal :=
  if (JsVal.and event (prop event "type")).truthy then prop event "type" else null

/-- Line 197: `eventType ? event.data.object : event`; `none` when the read of
`.object` throws because `event.data` is `undefined` or `null`. -/
def sessionOf (event : JsVal) : Option JsVal :=
  if (eventTypeOf event).truthy then
    if (prop event "data").nullish then none else some (prop (prop event "data") "object")
  else
    some event

/-- Line 198: `session.id || session.session_id || "sess_" + uuidv4()`. -/
def sessionIdOf (session : JsVal) (uuid : String) : JsVal :=
  JsVal.or (prop session "id") (JsVal.or (prop session "session_id") (str ("sess_" ++ uuid)))

/-- Line 219: the plan of the new license. -/
def planOf (session : JsVal) : JsVal :=
  if (JsVal.and (prop session "metadata") (prop (prop session "metadata") "plan")).truthy then
    prop (prop session "metadata") "plan"
  else
    str "Standard"

/-- Lines 244-246: the address the key is mailed to. -/
def customerEmailOf (session : JsVal) : JsVal :=
  if (JsVal.and (prop session "customer_details")
        (prop (prop session "customer_details") "email")).truthy then
    prop (prop session "customer_details") "email"
  else
    JsVal.or (prop session "customer_email")
      (JsVal.and (prop session "metadata") (prop (prop session "metadata") "email"))

/-- The text of the error the store client throws when `doc` is given a
document id that is not a string. -/
def invalidDocumentId : String :=
  "Error: Value for argument \"documentPath\" is not a valid resource path. Path must be a non-empty string."

/-- The text of the error raised by `sgMail.send` when the mail client was
not loaded (`sgMail` is `null`). -/
def mailClientMissing : String :=
  "TypeError: Cannot read properties of null (reading \x27send\x27)"

/-- Response 200 to a delivery whose session was processed before. -/
def alreadyProcessed : Response :=
  ⟨200, obj [("processed", bool true), ("note", str "already processed")]⟩

/-- Response 200 carrying the new license key. -/
def issuedResponse (licenseKey : String) : Response :=
  ⟨200, obj [("success", bool true), ("licenseKey", str licenseKey)]⟩

/-- Lines 243-267: the mail step.  The session document gets `emailSent`
(and `emailError` on failure) when a mail was attempted. -/
def recordMail (cfg : Config) (session : JsVal) (fx : Effects) (rec : SessionRecord) :
    SessionRecord :=
  if (customerEmailOf session).truthy && cfg.SENDGRID_API_KEY.truthy
      && cfg.EMAIL_FROM.truthy then
    match (if cfg.sgMail then fx.mailError else some mailClientMissing) with
    | none => { rec with emailSent := some true }
    | some e => { rec with emailSent := some false, emailError := some e }
  else
    rec

/-- Lines 200-273: the body of the `try` block, for a session and its id.
A document id that is not a string makes `doc` throw, which the `catch`
answers with 500.  The payment status of lines 209-213 is only logged. -/
def ingest (cfg : Config) (s : Store) (session sessionId : JsVal) (fx : Effects) :
    Store × Response :=
  match sessionId with
  | str sid =>
    match docGet sid s.sessions with
    | some _ => (s, alreadyProcessed)
    | none =>
      let licenseKey := makeLicenseKey fx.randomBytes
      let licenseDoc : License :=
        { activated := false, plan := planOf session, machineId := str "", userId := str "",
          stripeSessionId := sid, creationDate := fx.now, activationDate := none }
      let sessionDoc : SessionRecord :=
        { processed := true, licenseKey := licenseKey, createdAt := fx.now,
          rawSession := session, emailSent := none, emailError := none }
      ({ licenses := docSet licenseKey licenseDoc s.licenses,
         sessions := docSet sid (recordMail cfg session fx sessionDoc) s.sessions },
       issuedResponse licenseKey)
  | _ => (s, ⟨500, obj [("error", str invalidDocumentId)]⟩)

/-- The handler `stripeWebhook`, run without interruption. -/
def stripeWebhook (cfg : Config) (s : Store) (req : WebhookRequest) (fx : Effects) :
    Store × Outcome :=
  if req.method = "GET" then (s, .sent ⟨200, str "stripeWebhook ready"⟩)
  else
    match resolveEvent cfg req with
    | .error msg => (s, .sent ⟨400, str ("Webhook Error: " ++ msg)⟩)
    | .ok event =>
      let eventType := eventTypeOf event
      if eventType.truthy && !(strictEq eventType (str "checkout.session.completed"))
          && !(strictEq eventType (str "payment_intent.succeeded")) then
        (s, .sent ⟨200, obj [("received", bool true)]⟩)
      else
        match sessionOf event with
        | none => (s, .uncaught)
        | some session =>
          if session.nullish then (s, .uncaught)
          else
            let r := ingest cfg s session (sessionIdOf session fx.uuid) fx
            (r.1, .sent r.2)

/-- The event `{type: ty, data: {object: session}}` the payment gateway
delivers for a session. -/
def gatewayEvent (ty : String) (session : JsVal) : JsVal :=
  obj [("type", str ty), ("data", obj [("object", session)])]

/-- The request is a delivery of a recognized payment event for `session`,
whose id is the non-empty string `sessionId`: it is not the health check,
the event the handler works on has one of the two recognized types, and
`event.data.object` is `session`. -/
def deliversSession (cfg : Config) (req : WebhookRequest) (session : JsVal)
    (sessionId : String) : Bool :=
  match resolveEvent cfg req with
  | .error _ => false
  | .ok event =>
    decide (req.method ≠ "GET")
      && (decide (prop event "type" = str "checkout.session.completed")
          || decide (prop event "type" = str "payment_intent.succeeded"))
      && decide (prop (prop event "data") "object" = session)
      && decide (prop session "id" = str sessionId)
      && decide (sessionId ≠ "")

/-! ## Runs of the system -/

/-- One request handled by the deployment. -/
inductive Action where
  | webhook (req : WebhookRequest) (fx : Effects)
  | activation (req : HttpRequest) (now : Nat)

/-- The store after one request. -/
def step (cfg : Config) (s : Store) : Action → Store
  | .webhook req fx => (stripeWebhook cfg s req fx).1
  | .activation req now => (licenseVerifier s req now).1

/-- The store after a sequence of requests, handled one after the other. -/
def run (cfg : Config) (s : Store) (actions : List Action) : Store :=
  actions.foldl (step cfg) s

/-- The store can be produced from the empty store by some sequence of
webhook deliveries and activation requests. -/
def Reachable (cfg : Config) (s : Store) : Prop :=
  ∃ actions : List Action, run cfg Store.empty actions = s

/-- The same activation request sent once for each entry of `times` (the
server time of each call), one call after the other: the final store and the
responses in order. -/
def activateAll (req : HttpRequest) : List Nat → Store → Store × List Response
  | [], s => (s, [])
  | now :: rest, s =>
    let r := licenseVerifier s req now
    let t := activateAll req rest r.1
    (t.1, r.2 :: t.2)

/-! ## Two activation requests in flight -/

/-- Where one activation request stands: its read has not been issued yet,
its update is about to be sent, or it has been answered. -/
inductive Client where
  | waiting (req : HttpRequest)
  | writing (key : String) (license_key machineId userId : JsVal)
  | finished (r : Response)
  deriving DecidableEq

/-- One store round trip of a request: the read with the decision taken on
it, or the update. -/
def Client.advance (s : Store) (now : Nat) : Client → Store × Client
  | .waiting req =>
    match verifierDecide s req with
    | .reply r => (s, .finished r)
    | .activate key license_key machineId userId =>
      (s, .writing key license_key machineId userId)
  | .writing key license_key machineId userId =>
    let r := verifierCommit s key license_key machineId userId now
    (r.1, .finished r.2)
  | .finished r => (s, .finished r)

/-- Two requests served concurrently: the schedule says whose round trip
comes next (`false` for the first request, `true` for the second). -/
def interleave (now : Nat) : List Bool → Store × Client × Client → Store × Client × Client
  | [], st => st
  | false :: rest, (s, a, b) =>
    let r := Client.advance s now a
    interleave now rest (r.1, r.2, b)
  | true :: rest, (s, a, b) =>
    let r := Client.advance s now b
    interleave now rest (r.1, a, r.2)

/-! ## The scenario of the test plan

Payment event `evt_1` (plan "Pro", mail address "a@b.com") is delivered to a
deployment without signing secret and without mail configuration; the key it
issues is then activated from machine "M1". -/

/-- A deployment with nothing configured: bodies are accepted unsigned and
no mail is sent. -/
def demoConfig : Config := ⟨null, null, null, false, false⟩

/-- The checkout session of `evt_1`. -/
def demoSession : JsVal :=
  obj [("id", str "evt_1"), ("metadata", obj [("plan", str "Pro"), ("email", str "a@b.com")])]

/-- The delivery of `evt_1`. -/
def demoDelivery : WebhookRequest :=
  ⟨"POST", undefined, gatewayEvent "checkout.session.completed" demoSession, .error ""⟩

/-- The outside world during the first delivery: 32 random bytes, all `0xab`. -/
def demoEffects : Effects := ⟨List.replicate 32 171, "u", none, 5⟩

/-- The key issued for `evt_1`. -/
def demoKey : String := makeLicenseKey demoEffects.randomBytes

/-- The store after the first delivery of `evt_1`. -/
def demoIssued : Store := (stripeWebhook demoConfig Store.empty demoDelivery demoEffects).1

/-- An activation request for a key from a machine. -/
def activationRequest (key machine : String) : HttpRequest :=
  ⟨"POST", obj [("license_key", str key), ("machineId", str machine)]⟩

/-- The store after the issued key was activated from "M1" at time 7. -/
def demoBound : Store := (licenseVerifier demoIssued (activationRequest demoKey "M1") 7).1

/-! ## Facts about the store and about values -/

theorem docGet_docSet_same {α : Type} (k : String) (v : α) (l : List (String × α)) :
    docGet k (docSet k v l) = some v := by
  induction l with
  | nil => simp [docSet, docGet]
  | cons p rest ih =>
    obtain ⟨k1, v1⟩ := p
    by_cases h : k1 = k
    · simp [docSet, docGet, h]
    · simp [docSet, docGet, h, ih]

theorem docGet_docSet_other {α : Type} (k k2 : String) (v : α) (l : List (String × α))
    (h : k2 ≠ k) : docGet k2 (docSet k v l) = docGet k2 l := by
  induction l with
  | nil => simp [docSet, docGet, Ne.symm h]
  | cons p rest ih =>
    obtain ⟨k1, v1⟩ := p
    by_cases h1 : k1 = k
    · subst h1
      simp [docSet, docGet, Ne.symm h]
    · by_cases h2 : k1 = k2
      · subst h2
        simp [docSet, docGet, h1]
      · simp [docSet, docGet, h1, h2, ih]

theorem strictEq_eq_true {a b : JsVal} (h : strictEq a b = true) : a = b := by
  cases a <;> cases b <;> simp_all [strictEq]

theorem strictEq_str (a b : String) : strictEq (str a) (str b) = decide (a = b) := by
  by_cases h : a = b <;> simp [strictEq, h]

theorem truthy_str (s : String) : (str s).truthy = decide (s ≠ "") := by
  by_cases h : s = "" <;> simp [truthy, h]

/-! ## Activation: rejections -/

/-- C1: a POST activation request with key and machine id present, for a key
whose license is activated and bound to a non-empty machine id different
from the requesting one, is answered 403 with `success: false`, and the
store after the call is the store before it. -/
theorem bound_elsewhere_rejected_no_write (s : Store) (req : HttpRequest) (now : Nat)
    (l : License)
    (hpost : req.method = "POST")
    (hkey : (requestKey req).truthy = true)
    (hmachine : (requestMachine req).truthy = true)
    (hdoc : docGet (toStr (requestKey req)) s.licenses = some l)
    (hact : l.activated = true)
    (hset : l.machineId.truthy = true)
    (hdiff : l.machineId ≠ requestMachine req) :
    licenseVerifier s req now = (s, licenseInUse)
      ∧ (licenseVerifier s req now).2.status = 403
      ∧ prop (licenseVerifier s req now).2.body "success" = bool false
      ∧ (licenseVerifier s req now).1 = s
      ∧ docGet (toStr (requestKey req)) (licenseVerifier s req now).1.licenses = some l := by
  have hne : strictEq l.machineId (requestMachine req) = false := by
    cases h : strictEq l.machineId (requestMachine req) with
    | false => rfl
    | true => exact absurd (strictEq_eq_true h) hdiff
  have hres : licenseVerifier s req now = (s, licenseInUse) := by
    simp [licenseVerifier, verifierDecide, hpost, hkey, hmachine, hdoc, hact, hset, hne]
  rw [hres]
  exact ⟨rfl, rfl, rfl, rfl, hdoc⟩

/-- C1 in the test-plan scenario: the key bound to "M1" is requested from "M2". -/
theorem bound_elsewhere_rejected_no_write_witness :
    licenseVerifier demoBound (activationRequest demoKey "M2") 9 = (demoBound, licenseInUse)
      ∧ (licenseVerifier demoBound (activationRequest demoKey "M2") 9).2.status = 403
      ∧ prop (licenseVerifier demoBound (activationRequest demoKey "M2") 9).2.body "success"
          = bool false
      ∧ (licenseVerifier demoBound (activationRequest demoKey "M2") 9).1 = demoBound
      ∧ docGet (toStr (requestKey (activationRequest demoKey "M2")))
          (licenseVerifier demoBound (activationRequest demoKey "M2") 9).1.licenses
          = some ⟨true, str "Pro", str "M1", str "anonymous_client", "evt_1", 5, some 7⟩ :=
  bound_elsewhere_rejected_no_write demoBound (activationRequest demoKey "M2") 9
    ⟨true, str "Pro", str "M1", str "anonymous_client", "evt_1", 5, some 7⟩
    (by decide) (by decide) (by decide) (by decide) (by decide) (by decide) (by decide)

theorem licenseVerifier_accept (s : Store) (req : HttpRequest) (now : Nat) (l : License)
    (hpost : req.method = "POST")
    (hkey : (requestKey req).truthy = true)
    (hmachine : (requestMachine req).truthy = true)
    (hdoc : docGet (toStr (requestKey req)) s.licenses = some l)
    (hfree : (l.activated && l.machineId.truthy
      && !(strictEq l.machineId (requestMachine req))) = false) :
    licenseVerifier s req now =
      (⟨docSet (toStr (requestKey req))
          (l.activate (requestMachine req) (JsVal.or l.userId (str "anonymous_client")) now)
          s.licenses, s.sessions⟩,
       activatedResponse (requestKey req) (requestMachine req)
         (JsVal.or l.userId (str "anonymous_client"))) := by
  simp only [Bool.and_eq_false_iff, Bool.not_eq_false_eq_eq_true] at hfree
  simp only [licenseVerifier, verifierDecide, hpost, hkey, hmachine, hdoc, verifierCommit]
  rcases hfree with (h | h) | h <;> simp [h, hdoc]

theorem licenseVerifier_reconfirm (s : Store) (req : HttpRequest) (now : Nat) (l : License)
    (M : String)
    (hpost : req.method = "POST")
    (hkey : (requestKey req).truthy = true)
    (hmachine : requestMachine req = str M) (hM : M ≠ "")
    (hdoc : docGet (toStr (requestKey req)) s.licenses = some l)
    (hbound : l.machineId = str M) :
    licenseVerifier s req now =
      (⟨docSet (toStr (requestKey req))
          (l.activate (str M) (JsVal.or l.userId (str "anonymous_client")) now) s.licenses,
        s.sessions⟩,
       activatedResponse (requestKey req) (str M)
         (JsVal.or l.userId (str "anonymous_client"))) := by
  have h := licenseVerifier_accept s req now l hpost hkey
    (by rw [hmachine, truthy_str]; simpa using hM) hdoc
    (by rw [hmachine, hbound, strictEq_str]; simp)
  rw [h, hmachine]

/-- C5: for a license that is activated and bound to the non-empty machine id
`M`, every request of a run of activation requests for its key from `M` is
answered 200 with `success: true` and `licenseData.machine = M`, and after
the run the stored license is still bound to `M` and still activated. -/
theorem reconfirmation_keeps_binding (req : HttpRequest) (M : String) (times : List Nat)
    (s : Store) (l : License)
    (hpost : req.method = "POST")
    (hkey : (requestKey req).truthy = true)
    (hmachine : requestMachine req = str M) (hM : M ≠ "")
    (hdoc : docGet (toStr (requestKey req)) s.licenses = some l)
    (hact : l.activated = true)
    (hbound : l.machineId = str M) :
    (activateAll req times s).2.length = times.length
      ∧ (∀ r ∈ (activateAll req times s).2,
          r.status = 200 ∧ prop r.body "success" = bool true
            ∧ prop (prop r.body "licenseData") "machine" = str M)
      ∧ ∃ l2, docGet (toStr (requestKey req)) (activateAll req times s).1.licenses = some l2
          ∧ l2.machineId = str M ∧ l2.activated = true := by
  induction times generalizing s l with
  | nil => exact ⟨rfl, by simp [activateAll], l, hdoc, hbound, hact⟩
  | cons now rest ih =>
    have hstep := licenseVerifier_reconfirm s req now l M hpost hkey hmachine hM hdoc hbound
    have hnext := ih (licenseVerifier s req now).1
      (l.activate (str M) (JsVal.or l.userId (str "anonymous_client")) now)
      (by rw [hstep]; exact docGet_docSet_same _ _ _) rfl rfl
    obtain ⟨hlen, hall, hfinal⟩ := hnext
    refine ⟨by simp [activateAll, hlen], ?_, by simpa [activateAll] using hfinal⟩
    intro r hr
    simp only [activateAll, List.mem_cons] at hr
    rcases hr with hr | hr
    · rw [hr, hstep]
      exact ⟨rfl, rfl, rfl⟩
    · exact hall r hr

/-- C5 in the test-plan scenario: three confirmations from "M1". -/
theorem reconfirmation_keeps_binding_witness :
    (activateAll (activationRequest demoKey "M1") [9, 11, 13] demoBound).2.length = 3
      ∧ (∀ r ∈ (activateAll (activationRequest demoKey "M1") [9, 11, 13] demoBound).2,
          r.status = 200 ∧ prop r.body "success" = bool true
            ∧ prop (prop r.body "licenseData") "machine" = str "M1")
      ∧ ∃ l2, docGet (toStr (requestKey (activationRequest demoKey "M1")))
            (activateAll (activationRequest demoKey "M1") [9, 11, 13] demoBound).1.licenses
            = some l2
          ∧ l2.machineId = str "M1" ∧ l2.activated = true :=
  reconfirmation_keeps_binding (activationRequest demoKey "M1") "M1" [9, 11, 13] demoBound
    ⟨true, str "Pro", str "M1", str "anonymous_client", "evt_1", 5, some 7⟩
    (by decide) (by decide) (by decide) (by decide) (by decide) (by decide) (by decide)

/-- C6 (as stated, refuted): in the test-plan scenario the license activated
from "M1" at time 7 is confirmed from "M1" at time 9; the request succeeds
and the stored activation time changes from 7 to 9, so the record after the
confirmation is not the record before it. -/
theorem reconfirmation_restamps_activation_time :
    (licenseVerifier demoBound (activationRequest demoKey "M1") 9).2.status = 200
      ∧ (docGet demoKey demoBound.licenses).map License.activationDate = some (some 7)
      ∧ (docGet demoKey
          (licenseVerifier demoBound (activationRequest demoKey "M1") 9).1.licenses).map
            License.activationDate = some (some 9)
      ∧ docGet demoKey (licenseVerifier demoBound (activationRequest demoKey "M1") 9).1.licenses
          ≠ docGet demoKey demoBound.licenses := by
  decide

/-- C6 (amended): for a license activated and bound to the non-empty machine
id `M`, whose `userId` is set, a further activation request from `M` handled
at server time `now` succeeds and stores the same record with
`activationDate` replaced by `now`: `activated`, `machineId`, `userId`,
`plan`, `stripeSessionId` and `creationDate` keep their values. -/
theorem reconfirmation_changes_only_activation_time (s : Store) (req : HttpRequest)
    (now : Nat) (l : License) (M : String)
    (hpost : req.method = "POST")
    (hkey : (requestKey req).truthy = true)
    (hmachine : requestMachine req = str M) (hM : M ≠ "")
    (hdoc : docGet (toStr (requestKey req)) s.licenses = some l)
    (hact : l.activated = true)
    (hbound : l.machineId = str M)
    (huser : l.userId.truthy = true) :
    (licenseVerifier s req now).2.status = 200
      ∧ docGet (toStr (requestKey req)) (licenseVerifier s req now).1.licenses
          = some { l with activationDate := some now }
      ∧ (licenseVerifier s req now).1.sessions = s.sessions
      ∧ ∀ k, k ≠ toStr (requestKey req) →
          docGet k (licenseVerifier s req now).1.licenses = docGet k s.licenses := by
  have hstep := licenseVerifier_reconfirm s req now l M hpost hkey hmachine hM hdoc hbound
  rw [hstep]
  refine ⟨rfl, ?_, rfl, fun k hk => docGet_docSet_other _ _ _ _ hk⟩
  simp only [docGet_docSet_same, JsVal.or, huser, if_true, License.activate]
  rw [← hact, ← hbound]

/-- C6 (amended) in the test-plan scenario: a confirmation from "M1" at time 9. -/
theorem reconfirmation_changes_only_activation_time_witness :
    (licenseVerifier demoBound (activationRequest demoKey "M1") 9).2.status = 200
      ∧ docGet (toStr (requestKey (activationRequest demoKey "M1")))
          (licenseVerifier demoBound (activationRequest demoKey "M1") 9).1.licenses
          = some { (⟨true, str "Pro", str "M1", str "anonymous_client", "evt_1", 5, some 7⟩ :
              License) with activationDate := some 9 }
      ∧ (licenseVerifier demoBound (activationRequest demoKey "M1") 9).1.sessions
          = demoBound.sessions
      ∧ ∀ k, k ≠ toStr (requestKey (activationRequest demoKey "M1")) →
          docGet k (licenseVerifier demoBound (activationRequest demoKey "M1") 9).1.licenses
            = docGet k demoBound.licenses :=
  reconfirmation_changes_only_activation_time demoBound (activationRequest demoKey "M1") 9
    ⟨true, str "Pro", str "M1", str "anonymous_client", "evt_1", 5, some 7⟩ "M1"
    (by decide) (by decide) (by decide) (by decide) (by decide) (by decide) (by decide)
    (by decide)

/-! ## The license key -/

theorem prop_eq_str_not_nullish {v : JsVal} {name s : String} (h : prop v name = str s) :
    v.nullish = false := by
  cases v <;> simp_all [JsVal.prop, nullish]

theorem prop_of_nullish {v : JsVal} (h : v.nullish = true) (name : String) :
    prop v name = undefined := by
  cases v <;> simp_all [JsVal.prop, nullish]

theorem truthy_of_prop_eq_str {v : JsVal} {name s : String} (h : prop v name = str s) :
    v.truthy = true := by
  cases v <;> simp_all [JsVal.prop, truthy]

theorem stripeWebhook_recognized (cfg : Config) (s : Store) (req : WebhookRequest)
    (fx : Effects) (event session : JsVal) (ty E : String)
    (hget : req.method ≠ "GET")
    (hev : resolveEvent cfg req = .ok event)
    (hty : prop event "type" = str ty)
    (hrec : ty = "checkout.session.completed" ∨ ty = "payment_intent.succeeded")
    (hobj : prop (prop event "data") "object" = session)
    (hid : prop session "id" = str E) (hE : E ≠ "") :
    stripeWebhook cfg s req fx
      = ((ingest cfg s session (str E) fx).1, .sent (ingest cfg s session (str E) fx).2) := by
  have hsn : session.nullish = false := prop_eq_str_not_nullish hid
  have hdn : (prop event "data").nullish = false := by
    cases hd : (prop event "data").nullish with
    | false => rfl
    | true =>
      rw [prop_of_nullish hd] at hobj
      rw [← hobj] at hid
      cases hid
  have hevt : event.truthy = true := truthy_of_prop_eq_str hty
  have htt : (str ty).truthy = true := by rcases hrec with h | h <;> rw [h] <;> rfl
  have het : eventTypeOf event = str ty := by
    simp only [eventTypeOf, JsVal.and, hevt, hty, htt, if_true]
  have hskip : ((eventTypeOf event).truthy
      && !(strictEq (eventTypeOf event) (str "checkout.session.completed"))
      && !(strictEq (eventTypeOf event) (str "payment_intent.succeeded"))) = false := by
    rw [het]
    rcases hrec with h | h <;> rw [h] <;> rfl
  have hso : sessionOf event = some session := by
    simp only [sessionOf, het, htt, if_true, hdn, hobj]
    rfl
  have hE2 : (str E).truthy = true := by rw [truthy_str]; simpa using hE
  have hsid : sessionIdOf session fx.uuid = str E := by
    simp only [sessionIdOf, JsVal.or, hid, hE2, if_true]
  simp only [stripeWebhook, hget, if_false, hev, hskip, hso, hsn, hsid]
  rfl

theorem stripeWebhook_delivery (cfg : Config) (s : Store) (req : WebhookRequest)
    (fx : Effects) (session : JsVal) (E : String)
    (hdel : deliversSession cfg req session E = true) :
    stripeWebhook cfg s req fx
      = ((ingest cfg s session (str E) fx).1, .sent (ingest cfg s session (str E) fx).2) := by
  unfold deliversSession at hdel
  cases hev : resolveEvent cfg req with
  | error msg => simp [hev] at hdel
  | ok event =>
    simp only [hev, Bool.and_eq_true, Bool.or_eq_true, decide_eq_true_eq] at hdel
    obtain ⟨⟨⟨⟨hget, hty⟩, hobj⟩, hid⟩, hE⟩ := hdel
    rcases hty with hty | hty
    · exact stripeWebhook_recognized cfg s req fx event session _ E hget hev hty
        (Or.inl rfl) hobj hid hE
    · exact stripeWebhook_recognized cfg s req fx event session _ E hget hev hty
        (Or.inr rfl) hobj hid hE

theorem ingest_known (cfg : Config) (s : Store) (session : JsVal) (E : String) (fx : Effects)
    (rec : SessionRecord) (h : docGet E s.sessions = some rec) :
    ingest cfg s session (str E) fx = (s, alreadyProcessed) := by
  simp [ingest, h]

theorem ingest_fresh (cfg : Config) (s : Store) (session : JsVal) (E : String) (fx : Effects)
    (h : docGet E s.sessions = none) :
    ingest cfg s session (str E) fx
      = (⟨docSet (makeLicenseKey fx.randomBytes)
            ⟨false, planOf session, str "", str "", E, fx.now, none⟩ s.licenses,
          docSet E (recordMail cfg session fx
            ⟨true, makeLicenseKey fx.randomBytes, fx.now, session, none, none⟩) s.sessions⟩,
         issuedResponse (makeLicenseKey fx.randomBytes)) := by
  simp [ingest, h]

/-- C8 (as stated, refuted): in the test-plan scenario the first delivery of
`evt_1` is answered with the issued key; the second delivery is answered 200
with `processed: true` and a note, a body that has no `licenseKey` property
and does not mention the key. -/
theorem redelivery_response_has_no_key :
    (stripeWebhook demoConfig Store.empty demoDelivery demoEffects).2
        = .sent ⟨200, obj [("success", bool true), ("licenseKey", str demoKey)]⟩
      ∧ (stripeWebhook demoConfig demoIssued demoDelivery demoEffects).2
        = .sent ⟨200, obj [("processed", bool true), ("note", str "already processed")]⟩
      ∧ prop (obj [("processed", bool true), ("note", str "already processed")]) "licenseKey"
        = undefined := by
  decide

/-- C8 (amended): a re-delivery of a recognized event with id `E` whose
`stripe_sessions` document exists and records license key `K` is answered
200 with the body `processed: true, note: "already processed"`, which has no
`licenseKey` property; the key stays recorded in the document under `E`. -/
theorem redelivery_reports_processed (cfg : Config) (s : Store) (req : WebhookRequest)
    (fx : Effects) (session : JsVal) (E K : String) (rec : SessionRecord)
    (hdel : deliversSession cfg req session E = true)
    (hrec : docGet E s.sessions = some rec)
    (hK : rec.licenseKey = K) :
    (stripeWebhook cfg s req fx).2
        = .sent ⟨200, obj [("processed", bool true), ("note", str "already processed")]⟩
      ∧ (∀ r, (stripeWebhook cfg s req fx).2 = .sent r → prop r.body "licenseKey" = undefined)
      ∧ (docGet E (stripeWebhook cfg s req fx).1.sessions).map SessionRecord.licenseKey
          = some K := by
  rw [stripeWebhook_delivery cfg s req fx session E hdel, ingest_known cfg s session E fx rec hrec]
  refine ⟨rfl, ?_, by simp [hrec, hK]⟩
  intro r hr
  have hr2 : alreadyProcessed = r := by
    simpa using hr
  rw [← hr2]
  rfl

/-- C8 (amended) in the test-plan scenario: the second delivery of `evt_1`. -/
theorem redelivery_reports_processed_witness :
    (stripeWebhook demoConfig demoIssued demoDelivery demoEffects).2
        = .sent ⟨200, obj [("processed", bool true), ("note", str "already processed")]⟩
      ∧ (∀ r, (stripeWebhook demoConfig demoIssued demoDelivery demoEffects).2 = .sent r →
          prop r.body "licenseKey" = undefined)
      ∧ (docGet "evt_1"
          (stripeWebhook demoConfig demoIssued demoDelivery demoEffects).1.sessions).map
            SessionRecord.licenseKey = some demoKey :=
  redelivery_reports_processed demoConfig demoIssued demoDelivery demoEffects demoSession
    "evt_1" demoKey ⟨true, demoKey, 5, demoSession, none, none⟩
    (by decide) (by decide) (by decide)

/-! ## What a handler can do to the store -/

theorem docGet_docSet_cases {α : Type} (k k0 : String) (v x : α) (l : List (String × α))
    (h : docGet k (docSet k0 v l) = some x) : (k = k0 ∧ x = v) ∨ (k ≠ k0 ∧ docGet k l = some x) := by
  by_cases hk : k = k0
  · subst hk
    rw [docGet_docSet_same] at h
    exact Or.inl ⟨rfl, (Option.some.inj h).symm⟩
  · rw [docGet_docSet_other _ _ _ _ hk] at h
    exact Or.inr ⟨hk, h⟩

theorem licenseVerifier_store (s : Store) (req : HttpRequest) (now : Nat) :
    (licenseVerifier s req now).1 = s
      ∨ ∃ key l m u, docGet key s.licenses = some l ∧ m.truthy = true
          ∧ (licenseVerifier s req now).1 = ⟨docSet key (l.activate m u now) s.licenses, s.sessions⟩ := by
  unfold licenseVerifier verifierDecide
  by_cases h1 : req.method = "OPTIONS"
  · simp [h1]
  by_cases h2 : req.method = "POST"
  swap
  · simp [h1, h2]
  by_cases h3 : (requestKey req).truthy = true
  swap
  · simp [h1, h2, h3]
  by_cases h4 : (requestMachine req).truthy = true
  swap
  · simp [h1, h2, h3, h4]
  cases hdoc : docGet (toStr (requestKey req)) s.licenses with
  | none => simp [h1, h2, h3, h4, hdoc]
  | some l =>
    by_cases h5 : (l.activated && l.machineId.truthy
        && !(strictEq l.machineId (requestMachine req))) = true
    · left
      simp only [h1, h2, h3, h4, hdoc, h5]
      simp
    · right
      refine ⟨toStr (requestKey req), l, requestMachine req,
        JsVal.or l.userId (str "anonymous_client"), hdoc, h4, ?_⟩
      simp only [h1, h2, h3, h4, hdoc, h5]
      simp [verifierCommit, hdoc]

theorem ingest_store (cfg : Config) (s : Store) (session sessionId : JsVal) (fx : Effects) :
    (ingest cfg s session sessionId fx).1 = s
      ∨ ∃ sid rec, docGet sid s.sessions = none
          ∧ (ingest cfg s session sessionId fx).1
            = ⟨docSet (makeLicenseKey fx.randomBytes)
                ⟨false, planOf session, str "", str "", sid, fx.now, none⟩ s.licenses,
               docSet sid rec s.sessions⟩ := by
  cases sessionId with
  | str sid =>
    cases h : docGet sid s.sessions with
    | some rec => left; rw [ingest_known cfg s session sid fx rec h]
    | none => right; exact ⟨sid, _, h, by rw [ingest_fresh cfg s session sid fx h]⟩
  | _ => left; rfl

theorem stripeWebhook_store (cfg : Config) (s : Store) (req : WebhookRequest) (fx : Effects) :
    (stripeWebhook cfg s req fx).1 = s
      ∨ ∃ session sid rec, docGet sid s.sessions = none
          ∧ (stripeWebhook cfg s req fx).1
            = ⟨docSet (makeLicenseKey fx.randomBytes)
                ⟨false, planOf session, str "", str "", sid, fx.now, none⟩ s.licenses,
               docSet sid rec s.sessions⟩ := by
  unfold stripeWebhook
  split
  · exact Or.inl rfl
  · split
    · exact Or.inl rfl
    · rename_i event hev
      dsimp only
      split
      · exact Or.inl rfl
      · split
        · exact Or.inl rfl
        · rename_i session hs
          split
          · exact Or.inl rfl
          · rcases ingest_store cfg s session (sessionIdOf session fx.uuid) fx with h | h
            · exact Or.inl h
            · obtain ⟨sid, rec, h1, h2⟩ := h
              exact Or.inr ⟨session, sid, rec, h1, h2⟩

/-! ## Invariants of reachable stores -/

theorem run_induction (cfg : Config) (P : Store → Prop)
    (hstep : ∀ s a, P s → P (step cfg s a)) (actions : List Action) :
    ∀ s, P s → P (run cfg s actions) := by
  induction actions with
  | nil => intro s hs; exact hs
  | cons a rest ih => intro s hs; exact ih (step cfg s a) (hstep s a hs)

theorem reachable_induction (cfg : Config) (P : Store → Prop) (hinit : P Store.empty)
    (hstep : ∀ s a, P s → P (step cfg s a)) (s : Store) (h : Reachable cfg s) : P s := by
  obtain ⟨actions, rfl⟩ := h
  exact run_induction cfg P hstep actions Store.empty hinit

theorem step_consistent (cfg : Config) (s : Store) (a : Action)
    (h : ∀ k l, docGet k s.licenses = some l →
      (l.activated = false ∧ l.machineId = str "")
        ∨ (l.activated = true ∧ l.machineId.truthy = true)) :
    ∀ k l, docGet k (step cfg s a).licenses = some l →
      (l.activated = false ∧ l.machineId = str "")
        ∨ (l.activated = true ∧ l.machineId.truthy = true) := by
  intro k l hk
  cases a with
  | webhook req fx =>
    rcases stripeWebhook_store cfg s req fx with hs | ⟨session, sid, rec, _, hs⟩
    · simp only [step, hs] at hk
      exact h k l hk
    · simp only [step, hs] at hk
      rcases docGet_docSet_cases _ _ _ _ _ hk with ⟨_, hl⟩ | ⟨_, hold⟩
      · rw [hl]; exact Or.inl ⟨rfl, rfl⟩
      · exact h k l hold
  | activation req now =>
    rcases licenseVerifier_store s req now with hs | ⟨key, l0, m, u, _, hm, hs⟩
    · simp only [step, hs] at hk
      exact h k l hk
    · simp only [step, hs] at hk
      rcases docGet_docSet_cases _ _ _ _ _ hk with ⟨_, hl⟩ | ⟨_, hold⟩
      · rw [hl]; exact Or.inr ⟨rfl, hm⟩
      · exact h k l hold

/-- C3: in every store reachable from the empty store by a sequence of
webhook deliveries and activation requests with arbitrary contents, every
license document is activated exactly when its machine id is not the empty
string, and exactly when its machine id is set (truthy). -/
theorem reachable_activated_iff_machine_set (cfg : Config) (s : Store) (k : String)
    (l : License) (hreach : Reachable cfg s) (hdoc : docGet k s.licenses = some l) :
    (l.activated = true ↔ l.machineId ≠ str "")
      ∧ (l.activated = true ↔ l.machineId.truthy = true) := by
  have h := reachable_induction cfg
    (fun s => ∀ k l, docGet k s.licenses = some l →
      (l.activated = false ∧ l.machineId = str "")
        ∨ (l.activated = true ∧ l.machineId.truthy = true))
    (by intro k l hk; simp [Store.empty, docGet] at hk) (step_consistent cfg) s hreach k l hdoc
  rcases h with ⟨ha, hm⟩ | ⟨ha, hm⟩
  · rw [ha, hm]
    exact ⟨by simp, by decide⟩
  · rw [ha]
    refine ⟨?_, by simp [hm]⟩
    simp only [true_iff]
    intro he
    rw [he] at hm
    cases hm

/-- C3 in the test-plan scenario: the store after issuing and activating the key. -/
theorem reachable_activated_iff_machine_set_witness :
    Reachable demoConfig demoBound
      ∧ docGet demoKey demoBound.licenses
          = some ⟨true, str "Pro", str "M1", str "anonymous_client", "evt_1", 5, some 7⟩
      ∧ ((⟨true, str "Pro", str "M1", str "anonymous_client", "evt_1", 5, some 7⟩ :
            License).activated = true
          ↔ (⟨true, str "Pro", str "M1", str "anonymous_client", "evt_1", 5, some 7⟩ :
            License).machineId ≠ str "")
      ∧ ((⟨true, str "Pro", str "M1", str "anonymous_client", "evt_1", 5, some 7⟩ :
            License).activated = true
          ↔ (⟨true, str "Pro", str "M1", str "anonymous_client", "evt_1", 5, some 7⟩ :
            License).machineId.truthy = true) :=
  ⟨⟨[.webhook demoDelivery demoEffects, .activation (activationRequest demoKey "M1") 7], rfl⟩,
    by decide,
    reachable_activated_iff_machine_set demoConfig demoBound demoKey
      ⟨true, str "Pro", str "M1", str "anonymous_client", "evt_1", 5, some 7⟩
      ⟨[.webhook demoDelivery demoEffects, .activation (activationRequest demoKey "M1") 7], rfl⟩
      (by decide)⟩
/-! ## Repeated delivery -/

theorem licenseVerifier_eq_advance_twice (s : Store) (req : HttpRequest) (now : Nat) :
    Client.advance (Client.advance s now (.waiting req)).1 now
        (Client.advance s now (.waiting req)).2
      = ((licenseVerifier s req now).1, .finished (licenseVerifier s req now).2) := by
  unfold licenseVerifier
  cases h : verifierDecide s req <;> simp [Client.advance, h]

theorem requestKey_activationRequest (K M : String) (hK : K ≠ "") :
    requestKey (activationRequest K M) = str K := by
  simp [requestKey, activationRequest, JsVal.or, JsVal.prop, field, truthy, hK]

theorem requestMachine_activationRequest (K M : String) (hM : M ≠ "") :
    requestMachine (activationRequest K M) = str M := by
  simp [requestMachine, activationRequest, JsVal.or, JsVal.prop, field, truthy, hM]

theorem verifierDecide_free (s : Store) (K M : String) (l : License)
    (hK : K ≠ "") (hM : M ≠ "")
    (hdoc : docGet K s.licenses = some l) (hfree : l.activated = false) :
    verifierDecide s (activationRequest K M)
      = .activate K (str K) (str M) (JsVal.or l.userId (str "anonymous_client")) := by
  have hk := requestKey_activationRequest K M hK
  have hm := requestMachine_activationRequest K M hM
  have hpost : (activationRequest K M).method = "POST" := rfl
  simp [verifierDecide, hpost, hk, hm, truthy, hK, hM, toStr, hdoc, hfree]

theorem verifierDecide_taken (s : Store) (K M N : String) (l : License)
    (hK : K ≠ "") (hM : M ≠ "") (hN : N ≠ "") (hNM : N ≠ M)
    (hdoc : docGet K s.licenses = some l) (hact : l.activated = true)
    (hbound : l.machineId = str N) :
    verifierDecide s (activationRequest K M) = .reply licenseInUse := by
  have hk := requestKey_activationRequest K M hK
  have hm := requestMachine_activationRequest K M hM
  have hpost : (activationRequest K M).method = "POST" := rfl
  simp [verifierDecide, hpost, hk, hm, truthy, hK, hM, toStr, hdoc, hact, hbound, hN,
    strictEq, hNM]

theorem verifierCommit_present (s : Store) (K : String) (lk m u : JsVal) (now : Nat)
    (current : License) (hdoc : docGet K s.licenses = some current) :
    verifierCommit s K lk m u now
      = (⟨docSet K (current.activate m u now) s.licenses, s.sessions⟩,
          activatedResponse lk m u) := by
  simp [verifierCommit, hdoc]

theorem schedule_cases (sch : List Bool) (h : sch.count false = 2 ∧ sch.count true = 2) :
    sch = [false, false, true, true] ∨ sch = [false, true, false, true]
      ∨ sch = [false, true, true, false] ∨ sch = [true, false, false, true]
      ∨ sch = [true, false, true, false] ∨ sch = [true, true, false, false] := by
  obtain ⟨h1, h2⟩ := h
  rcases sch with _ | ⟨a, _ | ⟨b, _ | ⟨c, _ | ⟨d, _ | ⟨e, rest⟩⟩⟩⟩⟩
  · simp at h1
  · cases a <;> simp at h1 h2
  · cases a <;> cases b <;> simp at h1 h2
  · cases a <;> cases b <;> cases c <;> simp at h1 h2
  · cases a <;> cases b <;> cases c <;> cases d <;> simp at h1 h2 ⊢
  · exfalso
    cases a <;> cases b <;> cases c <;> cases d <;> cases e <;>
      simp [List.count_cons] at h1 h2

/-- C10 (as stated, refuted): in the test-plan scenario the freshly issued
key is activated concurrently from "M1" and "M2", and both reads reach the
store before either update.  Both requests are answered 200 with
`success: true`, none is rejected, and the license ends bound to "M2", the
later writer. -/
theorem concurrent_activations_both_succeed :
    (interleave 7 [false, true, false, true]
        (demoIssued, .waiting (activationRequest demoKey "M1"),
          .waiting (activationRequest demoKey "M2"))).2
      = (.finished (activatedResponse (str demoKey) (str "M1") (str "anonymous_client")),
         .finished (activatedResponse (str demoKey) (str "M2") (str "anonymous_client")))
      ∧ (activatedResponse (str demoKey) (str "M1") (str "anonymous_client")).status = 200
      ∧ (activatedResponse (str demoKey) (str "M2") (str "anonymous_client")).status = 200
      ∧ (docGet demoKey (interleave 7 [false, true, false, true]
          (demoIssued, .waiting (activationRequest demoKey "M1"),
            .waiting (activationRequest demoKey "M2"))).1.licenses).map License.machineId
          = some (str "M2") := by
  decide

/-- C10 (amended): two activation requests for a license that is not
activated, from distinct non-empty machine ids `A` and `B`, each made of a
read and an update, interleaved in any order.  When one request completes
before the other starts, the first is answered 200 and bound, the second is
rejected with "in use".  In the four other orders both reads precede both
updates: both requests are answered 200 and the license ends bound to the
machine whose update came last. -/
theorem concurrent_activation_outcomes (s : Store) (K A B : String) (l : License)
    (now : Nat) (sch : List Bool)
    (hK : K ≠ "") (hA : A ≠ "") (hB : B ≠ "") (hAB : A ≠ B)
    (hdoc : docGet K s.licenses = some l) (hfree : l.activated = false)
    (hsch : sch.count false = 2 ∧ sch.count true = 2) :
    ∃ s2 ra rb lic,
      interleave now sch
          (s, .waiting (activationRequest K A), .waiting (activationRequest K B))
        = (s2, .finished ra, .finished rb)
      ∧ docGet K s2.licenses = some lic
      ∧ lic.activated = true
      ∧ (sch = [false, false, true, true] →
          ra.status = 200 ∧ rb = licenseInUse ∧ lic.machineId = str A)
      ∧ (sch = [true, true, false, false] →
          ra = licenseInUse ∧ rb.status = 200 ∧ lic.machineId = str B)
      ∧ (sch ≠ [false, false, true, true] → sch ≠ [true, true, false, false] →
          ra.status = 200 ∧ rb.status = 200
            ∧ prop ra.body "success" = bool true ∧ prop rb.body "success" = bool true
            ∧ lic.machineId = str (if sch.getLast? = some true then B else A)) := by
  have hBA : B ≠ A := fun h => hAB h.symm
  obtain ⟨u, hu⟩ : ∃ u, u = JsVal.or l.userId (str "anonymous_client") := ⟨_, rfl⟩
  have dA := verifierDecide_free s K A l hK hA hdoc hfree
  have dB := verifierDecide_free s K B l hK hB hdoc hfree
  rw [← hu] at dA dB
  have cA := verifierCommit_present s K (str K) (str A) u now l hdoc
  have cB := verifierCommit_present s K (str K) (str B) u now l hdoc
  rcases schedule_cases sch hsch with h | h | h | h | h | h <;> subst h
  · have hd := verifierDecide_taken
      ⟨docSet K (l.activate (str A) u now) s.licenses, s.sessions⟩ K B A _
      hK hB hA hAB (docGet_docSet_same _ _ _) rfl rfl
    refine ⟨⟨docSet K (l.activate (str A) u now) s.licenses, s.sessions⟩,
      activatedResponse (str K) (str A) u, licenseInUse, l.activate (str A) u now,
      ?_, docGet_docSet_same _ _ _, rfl, ?_, ?_, ?_⟩
    · simp only [interleave, Client.advance, dA, cA, hd]
    · intro _; exact ⟨rfl, rfl, rfl⟩
    · intro h; simp at h
    · intro h; exact absurd rfl h
  · have c2 := verifierCommit_present
      ⟨docSet K (l.activate (str A) u now) s.licenses, s.sessions⟩ K (str K) (str B)
      u now _ (docGet_docSet_same _ _ _)
    refine ⟨⟨docSet K ((l.activate (str A) u now).activate (str B) u now)
        (docSet K (l.activate (str A) u now) s.licenses), s.sessions⟩,
      activatedResponse (str K) (str A) u, activatedResponse (str K) (str B) u,
      (l.activate (str A) u now).activate (str B) u now,
      ?_, docGet_docSet_same _ _ _, rfl, ?_, ?_, ?_⟩
    · simp only [interleave, Client.advance, dA, dB, cA, c2]
    · intro h; simp at h
    · intro h; simp at h
    · intro _ _; exact ⟨rfl, rfl, rfl, rfl, by simp [License.activate]⟩
  · have c2 := verifierCommit_present
      ⟨docSet K (l.activate (str B) u now) s.licenses, s.sessions⟩ K (str K) (str A)
      u now _ (docGet_docSet_same _ _ _)
    refine ⟨⟨docSet K ((l.activate (str B) u now).activate (str A) u now)
        (docSet K (l.activate (str B) u now) s.licenses), s.sessions⟩,
      activatedResponse (str K) (str A) u, activatedResponse (str K) (str B) u,
      (l.activate (str B) u now).activate (str A) u now,
      ?_, docGet_docSet_same _ _ _, rfl, ?_, ?_, ?_⟩
    · simp only [interleave, Client.advance, dA, dB, cB, c2]
    · intro h; simp at h
    · intro h; simp at h
    · intro _ _; exact ⟨rfl, rfl, rfl, rfl, by simp [License.activate]⟩
  · have c2 := verifierCommit_present
      ⟨docSet K (l.activate (str A) u now) s.licenses, s.sessions⟩ K (str K) (str B)
      u now _ (docGet_docSet_same _ _ _)
    refine ⟨⟨docSet K ((l.activate (str A) u now).activate (str B) u now)
        (docSet K (l.activate (str A) u now) s.licenses), s.sessions⟩,
      activatedResponse (str K) (str A) u, activatedResponse (str K) (str B) u,
      (l.activate (str A) u now).activate (str B) u now,
      ?_, docGet_docSet_same _ _ _, rfl, ?_, ?_, ?_⟩
    · simp only [interleave, Client.advance, dA, dB, cA, c2]
    · intro h; simp at h
    · intro h; simp at h
    · intro _ _; exact ⟨rfl, rfl, rfl, rfl, by simp [License.activate]⟩
  · have c2 := verifierCommit_present
      ⟨docSet K (l.activate (str B) u now) s.licenses, s.sessions⟩ K (str K) (str A)
      u now _ (docGet_docSet_same _ _ _)
    refine ⟨⟨docSet K ((l.activate (str B) u now).activate (str A) u now)
        (docSet K (l.activate (str B) u now) s.licenses), s.sessions⟩,
      activatedResponse (str K) (str A) u, activatedResponse (str K) (str B) u,
      (l.activate (str B) u now).activate (str A) u now,
      ?_, docGet_docSet_same _ _ _, rfl, ?_, ?_, ?_⟩
    · simp only [interleave, Client.advance, dA, dB, cB, c2]
    · intro h; simp at h
    · intro h; simp at h
    · intro _ _; exact ⟨rfl, rfl, rfl, rfl, by simp [License.activate]⟩
  · have hd := verifierDecide_taken
      ⟨docSet K (l.activate (str B) u now) s.licenses, s.sessions⟩ K A B _
      hK hA hB hBA (docGet_docSet_same _ _ _) rfl rfl
    refine ⟨⟨docSet K (l.activate (str B) u now) s.licenses, s.sessions⟩,
      licenseInUse, activatedResponse (str K) (str B) u, l.activate (str B) u now,
      ?_, docGet_docSet_same _ _ _, rfl, ?_, ?_, ?_⟩
    · simp only [interleave, Client.advance, dB, cB, hd]
    · intro h; simp at h
    · intro _; exact ⟨rfl, rfl, rfl⟩
    · intro _ h; exact absurd rfl h

/-- C10 (amended) in the test-plan scenario: both reads, then the updates of "M2" and "M1". -/
theorem concurrent_activation_outcomes_witness :
    ∃ s2 ra rb lic,
      interleave 7 [false, true, true, false]
          (demoIssued, .waiting (activationRequest demoKey "M1"),
            .waiting (activationRequest demoKey "M2"))
        = (s2, .finished ra, .finished rb)
      ∧ docGet demoKey s2.licenses = some lic
      ∧ lic.activated = true
      ∧ ([false, true, true, false] = [false, false, true, true] →
          ra.status = 200 ∧ rb = licenseInUse ∧ lic.machineId = str "M1")
      ∧ ([false, true, true, false] = [true, true, false, false] →
          ra = licenseInUse ∧ rb.status = 200 ∧ lic.machineId = str "M2")
      ∧ ([false, true, true, false] ≠ [false, false, true, true] →
          [false, true, true, false] ≠ [true, true, false, false] →
          ra.status = 200 ∧ rb.status = 200
            ∧ prop ra.body "success" = bool true ∧ prop rb.body "success" = bool true
            ∧ lic.machineId
                = str (if [false, true, true, false].getLast? = some true then "M2" else "M1")) :=
  concurrent_activation_outcomes demoIssued demoKey "M1" "M2"
    ⟨false, str "Pro", str "", str "", "evt_1", 5, none⟩ 7 [false, true, true, false]
    (by decide) (by decide) (by decide) (by decide) (by decide) (by decide) (by decide)

end LogPattern
